import Mathlib

/-!
Shallow embedding of `src/tools.py` (rezkam/qagent): a license-discovery
toolkit. Each Python function is modelled as a pure Lean function over an
explicit network oracle. HTTP responses carry a status code, a parsed JSON
body (the source always calls `resp.json()` on bodies it inspects, so the
body is modelled as already-parsed JSON) and raw text. Exceptions raised by
the Python runtime are modelled by the `PyExc` type and `Except`; a Python
function that may let an exception escape returns `Except PyExc _`, while
`fetch_license_from_repo`, whose single request sits inside a blanket
`except Exception`, returns a plain `String`. Every function additionally
returns the list of HTTP requests it issued (with the `timeout=` argument
each `requests.get` call passed, as written in the source) and the list of
log records it emitted, so that claims about network calls, timeouts and
logging are statable.
-/

/-- A JSON value, as produced by `resp.json()`. -/
inductive Json where
  | null
  | bool (b : Bool)
  | num (n : Int)
  | str (s : String)
  | arr (xs : List Json)
  | obj (fields : List (String × Json))

/-- Python truthiness of a JSON value (`if x:`): `None`, `False`, `0`,
empty string, empty list and empty dict are falsy. -/
def Json.truthy : Json → Bool
  | .null => false
  | .bool b => b
  | .num n => n != 0
  | .str s => !s.isEmpty
  | .arr xs => !xs.isEmpty
  | .obj fs => !fs.isEmpty

/-- First binding of a key in an association list (Python dicts have unique
keys, so first-match lookup is exact). -/
def jsonLookup : List (String × Json) → String → Option Json
  | [], _ => none
  | (k, v) :: rest, key => if k = key then some v else jsonLookup rest key

/-- Python `d.get(key)`: `None` when absent. Only applied to parsed JSON
objects in the source. -/
def Json.lookup? : Json → String → Option Json
  | .obj fs, key => jsonLookup fs key
  | _, _ => none

/-- Python `d.get(key, default)`. -/
def Json.getD (j : Json) (key : String) (d : Json) : Json :=
  (j.lookup? key).getD d

/-- Python exceptions relevant to the source: `requests` transport errors
(the only kind `search_license_issues` catches), `KeyError` from dict
subscription, `IndexError`, `TypeError`, and a catch-all for anything else
(e.g. errors out of the generative-model client). -/
inductive PyExc where
  | requestException (msg : String)
  | keyError (key : String)
  | indexError (msg : String)
  | typeError (msg : String)
  | otherException (msg : String)

/-- Python `str(e)` for an exception, used when an exception is formatted
into a returned message. (For `KeyError` CPython wraps the key in quote
characters; the claims never format a `KeyError`, so the key itself
stands in.) -/
def excMsg : PyExc → String
  | .requestException m => m
  | .keyError k => k
  | .indexError m => m
  | .typeError m => m
  | .otherException m => m

/-- Python dict subscription `d[key]`: `KeyError` when the key is absent,
`TypeError` when the value is not a dict. -/
def Json.index : Json → String → Except PyExc Json
  | .obj fs, key =>
    match jsonLookup fs key with
    | some v => Except.ok v
    | none => Except.error (PyExc.keyError key)
  | _, key => Except.error (PyExc.typeError ("value is not subscriptable by " ++ key))

/-- Python `xs[0]` on a JSON value: first element of a list, first character
of a string, `TypeError` otherwise. -/
def pyFirst : Json → Except PyExc Json
  | .arr (x :: _) => Except.ok x
  | .arr [] => Except.error (PyExc.indexError "list index out of range")
  | .str s => if s.isEmpty then Except.error (PyExc.indexError "string index out of range")
              else Except.ok (Json.str (s.take 1))
  | _ => Except.error (PyExc.typeError "value is not subscriptable")

/-- Python `a or b`: `a` when truthy, else `b`. -/
def pyOr (a b : Json) : Json :=
  if a.truthy then a else b

/-- Python `str(x)` as used inside f-strings. The claims only ever format
string, numeric or null JSON values; composite values are abbreviated. -/
def Json.pyStr : Json → String
  | .str s => s
  | .num n => toString n
  | .bool b => cond b "True" "False"
  | .null => "None"
  | .arr _ => "[...]"
  | .obj _ => "..."

/-- Python truthiness of an optional string (`if not api_key:` where the
value came from `os.getenv`): `None` and the empty string are falsy. -/
def optStrTruthy : Option String → Bool
  | none => false
  | some s => !s.isEmpty

/-- Whether a character list starts with the given pattern. -/
def startsWithChars : List Char → List Char → Bool
  | _, [] => true
  | [], _ :: _ => false
  | c :: cs, p :: ps => (c = p) && startsWithChars cs ps

/-- Whether a character list contains the given pattern as a contiguous
sublist. -/
def containsChars : List Char → List Char → Bool
  | [], p => p.isEmpty
  | c :: cs, p => startsWithChars (c :: cs) p || containsChars cs p

/-- Substring test, Python `pat in s`. -/
def strContains (s pat : String) : Bool :=
  containsChars s.data pat.data

/-- Python `str.lower()`, character-wise lowering (the filenames in the
claims are ASCII, where this coincides with Python). -/
def pyLower (s : String) : String :=
  String.mk (s.data.map Char.toLower)

/-- One HTTP request as issued by `requests.get`: the URL and the value of
the `timeout=` keyword argument (in seconds) the call passed, `none` when
the call passes no explicit timeout. (The `headers=` argument carries only
credentials and content-type negotiation and does not affect any claim, so
it is not recorded.) -/
structure Request where
  url : String
  timeout : Option Nat
deriving DecidableEq

/-- An HTTP response: status code, parsed JSON body, raw text body. -/
structure Response where
  status_code : Nat
  body : Json
  text : String

/-- The network oracle: what each issued request returns, or the exception
`requests.get` raises for it. -/
abbrev Net := Request → Except PyExc Response

/-- Log severity of the `logging` calls in the source. -/
inductive Level where
  | warning
  | error
deriving DecidableEq

/-- One emitted log record. -/
structure LogEntry where
  level : Level
  msg : String

/-- URL built by `fetch_license_via_api` (tools.py line 37). -/
def librariesUrl (group artifact version key : String) : String :=
  "https://libraries.io/api/Maven/" ++ group ++ ":" ++ artifact ++ "/" ++ version
    ++ "?api_key=" ++ key

/-- `fetch_license_via_api` (tools.py lines 20-43). The environment read
`os.getenv("LIBRARIES_IO_API_KEY")` is the `apiKey` parameter. The Python
`or`-chain on line 41 can return a non-string JSON value, so the result is
a `Json`. Exceptions raised by `requests.get` are not caught and surface
as `Except.error`. Returns (result, issued requests, emitted logs). -/
def fetch_license_via_api (apiKey : Option String) (net : Net)
    (group artifact version : String) :
    Except PyExc Json × List Request × List LogEntry :=
  if !optStrTruthy apiKey then
    (Except.ok (Json.str "Unknown"), [],
      [⟨Level.warning, "LIBRARIES_IO_API_KEY is not set"⟩])
  else
    let req : Request := ⟨librariesUrl group artifact version (apiKey.getD ""), some 10⟩
    match net req with
    | Except.error e => (Except.error e, [req], [])
    | Except.ok resp =>
      if resp.status_code = 200 then
        (Except.ok (pyOr (resp.body.getD "normalized_licenses" Json.null)
            (pyOr (resp.body.getD "licenses" Json.null) (Json.str "Unknown"))),
          [req], [])
      else
        (Except.ok (Json.str "Unknown"), [req],
          [⟨Level.error, "Libraries.io request failed: " ++ toString resp.status_code⟩])

/-- URL built by `lookup_license_text` (tools.py line 58). -/
def spdxUrl (license_name : String) : String :=
  "https://raw.githubusercontent.com/spdx/license-list-data/main/text/"
    ++ license_name ++ ".txt"

/-- `lookup_license_text` (tools.py lines 47-63). Exceptions raised by
`requests.get` are not caught. Returns (result, requests, logs). -/
def lookup_license_text (net : Net) (license_name : String) :
    Except PyExc String × List Request × List LogEntry :=
  let req : Request := ⟨spdxUrl license_name, some 10⟩
  match net req with
  | Except.error e => (Except.error e, [req], [])
  | Except.ok resp =>
    if resp.status_code = 200 then (Except.ok resp.text, [req], [])
    else (Except.ok "", [req],
      [⟨Level.warning, "Could not fetch SPDX text for " ++ license_name⟩])

/-- `fetch_license_from_repo` (tools.py lines 67-86). The whole request sits
inside `try ... except Exception`, so no exception escapes and the result
type is a plain `String`. Returns (result, requests, logs). -/
def fetch_license_from_repo (net : Net) (url : String) :
    String × List Request × List LogEntry :=
  if url.isEmpty then ("", [], [])
  else
    let req : Request := ⟨url, some 10⟩
    match net req with
    | Except.ok resp =>
      if resp.status_code = 200 then (resp.text, [req], []) else ("", [req], [])
    | Except.error e =>
      ("", [req],
        [⟨Level.error, "Failed to fetch license from " ++ url ++ ": " ++ excMsg e⟩])

/-- Search URL built by `search_license_issues` (tools.py line 117). -/
def searchUrl (package_name : String) : String :=
  "https://api.github.com/search/repositories?q=" ++ package_name

/-- License-endpoint URL (tools.py line 131). -/
def licenseUrl (full_name : String) : String :=
  "https://api.github.com/repos/" ++ full_name ++ "/license"

/-- Contents-endpoint URL (tools.py line 139). -/
def contentsUrl (full_name : String) : String :=
  "https://api.github.com/repos/" ++ full_name ++ "/contents"

/-- Left-to-right evaluation of the comprehension elements
`f["name"].lower()`: the first element that raises aborts the whole
comprehension. -/
def fileNamesGo : List Json → Except PyExc (List String)
  | [] => Except.ok []
  | f :: rest =>
    match f.index "name" with
    | Except.error e => Except.error e
    | Except.ok (Json.str s) =>
      match fileNamesGo rest with
      | Except.error e => Except.error e
      | Except.ok ss => Except.ok (pyLower s :: ss)
    | Except.ok _ => Except.error (PyExc.typeError "value has no lower method")

/-- The list comprehension on tools.py line 143:
`[f["name"].lower() for f in contents_resp.json()]`. Subscripting a
non-dict element or lowering a non-string raises; iterating a non-list
raises. -/
def fileNames : Json → Except PyExc (List String)
  | Json.arr xs => fileNamesGo xs
  | _ => Except.error (PyExc.typeError "value is not iterable")

/-- The body of the `try` block of `search_license_issues` (tools.py lines
118-149): three sequential requests with linear fallback. Any exception
(from `requests.get`, `raise_for_status`, subscription) is returned as
`Except.error` for the surrounding handler to inspect. Returns
(result, issued requests). -/
def searchInner (net : Net) (package_name : String) :
    Except PyExc String × List Request :=
  let req1 : Request := ⟨searchUrl package_name, some 10⟩
  match net req1 with
  | Except.error e => (Except.error e, [req1])
  | Except.ok sresp =>
    if 400 ≤ sresp.status_code then
      (Except.error (PyExc.requestException
        ("HTTP error for url: " ++ searchUrl package_name)), [req1])
    else
      let repos := sresp.body.getD "items" (Json.arr [])
      if !repos.truthy then
        (Except.ok ("No repositories found for " ++ package_name), [req1])
      else
        match pyFirst repos with
        | Except.error e => (Except.error e, [req1])
        | Except.ok repo =>
          match repo.index "full_name" with
          | Except.error e => (Except.error e, [req1])
          | Except.ok fullJ =>
            let full := fullJ.pyStr
            let req2 : Request := ⟨licenseUrl full, some 10⟩
            match net req2 with
            | Except.error e => (Except.error e, [req1, req2])
            | Except.ok lresp =>
              if lresp.status_code = 200 then
                match lresp.body.index "license" with
                | Except.error e => (Except.error e, [req1, req2])
                | Except.ok lic =>
                  match lic.index "spdx_id" with
                  | Except.error e => (Except.error e, [req1, req2])
                  | Except.ok sid =>
                    (Except.ok ("Found license for " ++ full ++ ": " ++ sid.pyStr),
                      [req1, req2])
              else
                let req3 : Request := ⟨contentsUrl full, some 10⟩
                match net req3 with
                | Except.error e => (Except.error e, [req1, req2, req3])
                | Except.ok cresp =>
                  if cresp.status_code = 200 then
                    match fileNames cresp.body with
                    | Except.error e => (Except.error e, [req1, req2, req3])
                    | Except.ok files =>
                      let license_files := files.filter fun f =>
                        strContains f "license" || strContains f "copying"
                      if license_files.isEmpty then
                        (Except.ok ("No license information found for " ++ full),
                          [req1, req2, req3])
                      else
                        (Except.ok ("Found potential license file(s) in " ++ full
                            ++ ": " ++ String.intercalate ", " license_files),
                          [req1, req2, req3])
                  else
                    (Except.ok ("No license information found for " ++ full),
                      [req1, req2, req3])

/-- `search_license_issues` (tools.py lines 90-153). The handler on line 151
catches only `requests.exceptions.RequestException` and converts it to an
error-message string; every other exception propagates uncaught. Returns
(result, issued requests, emitted logs). -/
def search_license_issues (githubToken : Option String) (net : Net)
    (package_name : String) :
    Except PyExc String × List Request × List LogEntry :=
  if !optStrTruthy githubToken then
    (Except.ok "Could not search: GitHub token not configured", [],
      [⟨Level.warning, "GITHUB_TOKEN is not set"⟩])
  else
    match searchInner net package_name with
    | (Except.error (PyExc.requestException m), calls) =>
      (Except.ok ("Error searching for license: " ++ m), calls,
        [⟨Level.error, "GitHub API request failed: " ++ m⟩])
    | (Except.error e, calls) => (Except.error e, calls, [])
    | (Except.ok s, calls) => (Except.ok s, calls, [])

/-- Leading-whitespace removal on a character list. -/
def dropLeadingWs : List Char → List Char
  | [] => []
  | c :: cs => if c.isWhitespace then dropLeadingWs cs else c :: cs

/-- Python `str.strip()` with no argument: remove leading and trailing
whitespace. Modelled structurally so concrete witnesses evaluate. -/
def pyStrip (s : String) : String :=
  String.mk ((dropLeadingWs (dropLeadingWs s.data).reverse).reverse)

/-- `analyze_license_text` (tools.py lines 156-199). `genai.configure` on
line 175 runs before the `try` block; the oracle `configureResult` is its
outcome, and an exception there propagates. The model construction and
`generate_content` call inside the `try` are the oracle `genResult`, whose
`ok` value is `response.text`; the license text is interpolated verbatim
into the fixed prompt the call sends, which does not affect any claim.
Returns (result, emitted logs). -/
def analyze_license_text (apiKey : Option String)
    (configureResult : Except PyExc Unit) (genResult : Except PyExc String)
    (text : String) :
    Except PyExc String × List LogEntry :=
  if !optStrTruthy apiKey then
    (Except.ok "Could not analyze: Google API key not configured",
      [⟨Level.warning, "GOOGLE_API_KEY not set"⟩])
  else
    match configureResult with
    | Except.error e => (Except.error e, [])
    | Except.ok _ =>
      match genResult with
      | Except.ok t => (Except.ok (pyStrip t), [])
      | Except.error e =>
        (Except.ok ("Error analyzing license: " ++ excMsg e),
          [⟨Level.error, "License analysis failed: " ++ excMsg e⟩])

/-- A JSON body holding the optional string fields `normalized_licenses`
and `licenses`, as in the claim C2 scenarios. -/
def mkLicenseBody (n l : Option String) : Json :=
  Json.obj ((n.map fun s => ("normalized_licenses", Json.str s)).toList
    ++ (l.map fun s => ("licenses", Json.str s)).toList)

/-- Tail of the claim C2 reading: the field `licenses` if present and
non-empty, otherwise the string Unknown. -/
def claimLicenseTail : Option String → String
  | some s => if s.isEmpty then "Unknown" else s
  | none => "Unknown"

/-- The claim C2 reading of the 200-branch, stated in the claim words: the
field `normalized_licenses` if present and non-empty, otherwise `licenses`
if present and non-empty, otherwise the string Unknown. To be compared
with the `or`-chain the code computes. -/
def claimLicenseSpec : Option String → Option String → String
  | some s, l => if s.isEmpty then claimLicenseTail l else s
  | none, l => claimLicenseTail l

/-- A network where every request succeeds with a 200 response whose body
holds only `normalized_licenses = MIT`. -/
def netC2 : Net := fun _ => Except.ok ⟨200, mkLicenseBody (some "MIT") none, ""⟩

/-- A network where every request raises a transport error. -/
def netDown : Net := fun _ => Except.error (PyExc.requestException "connection timed out")

/-- The GitHub search response used by concrete scenarios: one hit whose
full name is acme/widgets. -/
def searchBody : Json :=
  Json.obj [("items", Json.arr [Json.obj [("full_name", Json.str "acme/widgets")]])]

/-- Network for the found-license scenario: the search succeeds with one
repository and the license endpoint answers 200 with spdx_id MIT. -/
def netFound : Net := fun r =>
  if r.url = searchUrl "widgets" then Except.ok ⟨200, searchBody, ""⟩
  else Except.ok ⟨200, Json.obj [("license", Json.obj [("spdx_id", Json.str "MIT")])], ""⟩

/-- Network for the contents-fallback scenario: the license endpoint answers
404 and the contents endpoint lists two files, one of them a license file. -/
def netFallback : Net := fun r =>
  if r.url = searchUrl "widgets" then Except.ok ⟨200, searchBody, ""⟩
  else if r.url = licenseUrl "acme/widgets" then Except.ok ⟨404, Json.null, ""⟩
  else Except.ok ⟨200,
    Json.arr [Json.obj [("name", Json.str "LICENSE.md")],
      Json.obj [("name", Json.str "readme")]], ""⟩

/-- Network for the malformed-license-body scenario: the license endpoint
answers 200 but its JSON body has no license key. -/
def netNoKey : Net := fun r =>
  if r.url = searchUrl "widgets" then Except.ok ⟨200, searchBody, ""⟩
  else Except.ok ⟨200, Json.obj [], ""⟩

/-- Claim C5: for every input, when the metadata API key is not configured,
fetch_license_via_api returns exactly Unknown, emits a warning-level
diagnostic, and issues zero network calls. -/
theorem C5_no_key_no_network (apiKey : Option String) (net : Net)
    (group artifact version : String) (hkey : optStrTruthy apiKey = false) :
    fetch_license_via_api apiKey net group artifact version
      = (Except.ok (Json.str "Unknown"), [],
          [⟨Level.warning, "LIBRARIES_IO_API_KEY is not set"⟩]) := by
  simp [fetch_license_via_api, hkey]

/-- Witness for C5 at a concrete input: the key is absent and the result is
Unknown with no request and one warning. -/
theorem C5_witness :
    optStrTruthy none = false ∧
    fetch_license_via_api none netDown "g" "a" "v"
      = (Except.ok (Json.str "Unknown"), [],
          [⟨Level.warning, "LIBRARIES_IO_API_KEY is not set"⟩]) :=
  ⟨rfl, C5_no_key_no_network none netDown "g" "a" "v" rfl⟩

/-- Claim C2: for every HTTP 200 response, fetch_license_via_api returns
the field normalized_licenses if present and non-empty, otherwise licenses
if present and non-empty, otherwise Unknown. The code computes a Python
`or`-chain; this proves it equal to the claim-worded `claimLicenseSpec`. -/
theorem C2_license_field_fallback (apiKey : Option String) (net : Net)
    (group artifact version rawText : String) (n l : Option String)
    (hkey : optStrTruthy apiKey = true)
    (hnet : net ⟨librariesUrl group artifact version (apiKey.getD ""), some 10⟩
      = Except.ok ⟨200, mkLicenseBody n l, rawText⟩) :
    (fetch_license_via_api apiKey net group artifact version).1
      = Except.ok (Json.str (claimLicenseSpec n l)) := by
  rcases n with _ | s <;> rcases l with _ | t <;>
    simp [fetch_license_via_api, hkey, hnet, mkLicenseBody, claimLicenseSpec,
      claimLicenseTail, Json.getD, Json.lookup?, jsonLookup, pyOr, Json.truthy] <;>
    split_ifs <;> simp_all [Json.truthy]

/-- Witness for C2 at a concrete input: a 200 body carrying only
normalized_licenses = MIT yields MIT. -/
theorem C2_witness :
    optStrTruthy (some "k") = true ∧
    netC2 ⟨librariesUrl "g" "a" "v" "k", some 10⟩
      = Except.ok ⟨200, mkLicenseBody (some "MIT") none, ""⟩ ∧
    (fetch_license_via_api (some "k") netC2 "g" "a" "v").1
      = Except.ok (Json.str "MIT") :=
  ⟨rfl, rfl, C2_license_field_fallback (some "k") netC2 "g" "a" "v" ""
    (some "MIT") none rfl rfl⟩

/-- Claim C6: fetch_license_from_repo never raises (its result type is a
plain String because the single request sits inside a blanket exception
handler): an empty url returns the empty string with no network call; a
non-200 response returns the empty string with no log; a request that
raises is logged at error level and the function returns the empty
string. -/
theorem C6_fetch_repo_never_raises (net : Net) (url : String) :
    (url.isEmpty = true → fetch_license_from_repo net url = ("", [], [])) ∧
    (url.isEmpty = false → ∀ resp, net ⟨url, some 10⟩ = Except.ok resp →
      fetch_license_from_repo net url
        = (if resp.status_code = 200 then resp.text else "",
            [⟨url, some 10⟩], [])) ∧
    (url.isEmpty = false → ∀ e, net ⟨url, some 10⟩ = Except.error e →
      fetch_license_from_repo net url
        = ("", [⟨url, some 10⟩],
            [⟨Level.error,
              "Failed to fetch license from " ++ url ++ ": " ++ excMsg e⟩])) := by
  refine ⟨fun h => by simp [fetch_license_from_repo, h],
    fun h resp hnet => ?_, fun h e hnet => by simp [fetch_license_from_repo, h, hnet]⟩
  by_cases hst : resp.status_code = 200 <;>
    simp [fetch_license_from_repo, h, hnet, hst]

/-- Witness for C6 at concrete inputs: the empty url short-circuits, and a
url whose request raises yields the empty string plus one error log. -/
theorem C6_witness :
    fetch_license_from_repo netDown "" = ("", [], []) ∧
    fetch_license_from_repo netDown "http://x"
      = ("", [⟨"http://x", some 10⟩],
          [⟨Level.error,
            "Failed to fetch license from http://x: connection timed out"⟩]) :=
  ⟨(C6_fetch_repo_never_raises netDown "").1 rfl,
    (C6_fetch_repo_never_raises netDown "http://x").2.2 rfl
      (PyExc.requestException "connection timed out") rfl⟩

/-- Claim C7: with the generative-model key configured and a successful
model call, analyze_license_text returns the response text stripped of
surrounding whitespace and otherwise unchanged, for every model output. -/
theorem C7_analyze_passthrough (apiKey : Option String) (s text : String)
    (hkey : optStrTruthy apiKey = true) :
    analyze_license_text apiKey (Except.ok ()) (Except.ok s) text
      = (Except.ok (pyStrip s), []) := by
  simp [analyze_license_text, hkey]

/-- Witness for C7 at a concrete input: mocked model output OK is returned
as OK. -/
theorem C7_witness :
    optStrTruthy (some "k") = true ∧
    analyze_license_text (some "k") (Except.ok ()) (Except.ok "OK") "txt"
      = (Except.ok "OK", []) :=
  ⟨rfl, C7_analyze_passthrough (some "k") "OK" "txt" rfl⟩

/-- Claim C8: fetch_license_via_api and lookup_license_text do not catch
request-level exceptions: when the request raises, the exception is the
functions result (propagates to the caller) instead of a sentinel value. -/
theorem C8_exceptions_propagate (apiKey : Option String) (net : Net)
    (group artifact version license_name : String) (e : PyExc)
    (hkey : optStrTruthy apiKey = true)
    (h1 : net ⟨librariesUrl group artifact version (apiKey.getD ""), some 10⟩
      = Except.error e)
    (h2 : net ⟨spdxUrl license_name, some 10⟩ = Except.error e) :
    (fetch_license_via_api apiKey net group artifact version).1
      = Except.error e ∧
    (lookup_license_text net license_name).1 = Except.error e := by
  constructor <;> simp [fetch_license_via_api, lookup_license_text, hkey, h1, h2]

/-- Witness for C8 at a concrete input: a timed-out request surfaces as the
exception itself from both operations. -/
theorem C8_witness :
    optStrTruthy (some "k") = true ∧
    (fetch_license_via_api (some "k") netDown "g" "a" "v").1
      = Except.error (PyExc.requestException "connection timed out") ∧
    (lookup_license_text netDown "MIT").1
      = Except.error (PyExc.requestException "connection timed out") := by
  refine ⟨rfl, ?_, ?_⟩ <;>
    [exact (C8_exceptions_propagate (some "k") netDown "g" "a" "v" "MIT"
      (PyExc.requestException "connection timed out") rfl rfl rfl).1;
     exact (C8_exceptions_propagate (some "k") netDown "g" "a" "v" "MIT"
      (PyExc.requestException "connection timed out") rfl rfl rfl).2]

/-- Claim C10: genai.configure runs before the try block, so an exception
there propagates uncaught; an exception during the model call itself is
caught, logged, and converted to an error-message string. -/
theorem C10_configure_outside_handler (apiKey : Option String)
    (genResult : Except PyExc String) (text : String) (e : PyExc)
    (hkey : optStrTruthy apiKey = true) :
    analyze_license_text apiKey (Except.error e) genResult text
      = (Except.error e, []) ∧
    analyze_license_text apiKey (Except.ok ()) (Except.error e) text
      = (Except.ok ("Error analyzing license: " ++ excMsg e),
          [⟨Level.error, "License analysis failed: " ++ excMsg e⟩]) := by
  constructor <;> simp [analyze_license_text, hkey]

/-- Witness for C10 at a concrete input: a configuration failure surfaces
as the exception, while a model-call failure becomes an error string. -/
theorem C10_witness :
    optStrTruthy (some "k") = true ∧
    analyze_license_text (some "k")
        (Except.error (PyExc.otherException "bad key")) (Except.ok "OK") "txt"
      = (Except.error (PyExc.otherException "bad key"), []) ∧
    analyze_license_text (some "k") (Except.ok ())
        (Except.error (PyExc.otherException "quota")) "txt"
      = (Except.ok "Error analyzing license: quota",
          [⟨Level.error, "License analysis failed: quota"⟩]) :=
  ⟨rfl,
    (C10_configure_outside_handler (some "k") (Except.ok "OK") "txt"
      (PyExc.otherException "bad key") rfl).1,
    (C10_configure_outside_handler (some "k") (Except.ok "OK") "txt"
      (PyExc.otherException "quota") rfl).2⟩

/-- Claim C3: when the license endpoint answers 200, search_license_issues
returns exactly "Found license for {full_name}: {spdx_id}" built from the
first search result and the license response body. -/
theorem C3_found_license_message (tok : Option String) (net : Net)
    (pkg full spdx stext ltext : String) (rest : List Json)
    (fields : List (String × Json))
    (htok : optStrTruthy tok = true)
    (hs : net ⟨searchUrl pkg, some 10⟩
      = Except.ok ⟨200, Json.obj [("items", Json.arr (Json.obj fields :: rest))],
          stext⟩)
    (hrepo : jsonLookup fields "full_name" = some (Json.str full))
    (hl : net ⟨licenseUrl full, some 10⟩
      = Except.ok ⟨200,
          Json.obj [("license", Json.obj [("spdx_id", Json.str spdx)])], ltext⟩) :
    search_license_issues tok net pkg
      = (Except.ok ("Found license for " ++ full ++ ": " ++ spdx),
          [⟨searchUrl pkg, some 10⟩, ⟨licenseUrl full, some 10⟩], []) := by
  simp [search_license_issues, searchInner, htok, hs, hrepo, hl, Json.getD,
    Json.lookup?, jsonLookup, Json.truthy, pyFirst, Json.index, Json.pyStr]

/-- Witness for C3 at the concrete scenario of the claim: repo acme/widgets
with spdx_id MIT yields exactly the expected message. -/
theorem C3_witness :
    optStrTruthy (some "tok") = true ∧
    (search_license_issues (some "tok") netFound "widgets").1
      = Except.ok "Found license for acme/widgets: MIT" := by
  constructor
  · rfl
  · rw [C3_found_license_message (some "tok") netFound "widgets" "acme/widgets"
      "MIT" "" "" [] [("full_name", Json.str "acme/widgets")] rfl rfl rfl rfl]
    rfl

/-- Claim C9: when the license endpoint answers 200 but its JSON body lacks
the license key, or the nested spdx_id key, the resulting KeyError is not
caught (the handler catches only request exceptions): the run ends in the
exception, with no contents call and no error-message string. -/
theorem C9_keyerror_uncaught (tok : Option String) (net : Net)
    (pkg full stext : String) (rest : List Json) (fields : List (String × Json))
    (htok : optStrTruthy tok = true)
    (hs : net ⟨searchUrl pkg, some 10⟩
      = Except.ok ⟨200, Json.obj [("items", Json.arr (Json.obj fields :: rest))],
          stext⟩)
    (hrepo : jsonLookup fields "full_name" = some (Json.str full)) :
    (∀ lfields ltext,
      net ⟨licenseUrl full, some 10⟩ = Except.ok ⟨200, Json.obj lfields, ltext⟩ →
      jsonLookup lfields "license" = none →
      search_license_issues tok net pkg
        = (Except.error (PyExc.keyError "license"),
            [⟨searchUrl pkg, some 10⟩, ⟨licenseUrl full, some 10⟩], [])) ∧
    (∀ lfields inner ltext,
      net ⟨licenseUrl full, some 10⟩ = Except.ok ⟨200, Json.obj lfields, ltext⟩ →
      jsonLookup lfields "license" = some (Json.obj inner) →
      jsonLookup inner "spdx_id" = none →
      search_license_issues tok net pkg
        = (Except.error (PyExc.keyError "spdx_id"),
            [⟨searchUrl pkg, some 10⟩, ⟨licenseUrl full, some 10⟩], [])) := by
  constructor
  · intro lfields ltext hl hmiss
    simp [search_license_issues, searchInner, htok, hs, hrepo, hl, hmiss,
      Json.getD, Json.lookup?, jsonLookup, Json.truthy, pyFirst, Json.index,
      Json.pyStr]
  · intro lfields inner ltext hl hlic hmiss
    simp [search_license_issues, searchInner, htok, hs, hrepo, hl, hlic, hmiss,
      Json.getD, Json.lookup?, jsonLookup, Json.truthy, pyFirst, Json.index,
      Json.pyStr]

/-- Witness for C9 at a concrete scenario: a 200 license response with an
empty JSON object ends the run in KeyError on license. -/
theorem C9_witness :
    optStrTruthy (some "tok") = true ∧
    (search_license_issues (some "tok") netNoKey "widgets").1
      = Except.error (PyExc.keyError "license") := by
  constructor
  · rfl
  · rw [(C9_keyerror_uncaught (some "tok") netNoKey "widgets" "acme/widgets"
      "" [] [("full_name", Json.str "acme/widgets")] rfl rfl rfl).1 [] "" rfl rfl]

/-- Evaluating the contents comprehension on a listing of objects carrying
string name fields yields the lowered names. -/
theorem fileNamesGo_names (ns : List String) :
    fileNamesGo (ns.map fun n => Json.obj [("name", Json.str n)])
      = Except.ok (ns.map pyLower) := by
  induction ns with
  | nil => rfl
  | cons n ns ih => simp [fileNamesGo, Json.index, jsonLookup, ih]

/-- Filtering lowered names is lowering the case-insensitively filtered
originals. -/
theorem filter_pyLower (p : String → Bool) (ns : List String) :
    (ns.map pyLower).filter p
      = (ns.filter fun n => p (pyLower n)).map pyLower := by
  induction ns with
  | nil => rfl
  | cons n ns ih => by_cases h : p (pyLower n) <;> simp [h, ih]

/-- Claim C4: the contents-listing fallback runs only when the license
endpoint answers non-200 (on 200 no contents request is issued); when it
runs and the contents call answers 200, filenames are filtered
case-insensitively for the substrings license or copying, a message
listing the matches is returned when any match, and otherwise, or when
the contents call answers non-200, a no-license-information message is
returned. -/
theorem C4_contents_fallback (tok : Option String) (net : Net)
    (pkg full stext : String) (rest : List Json) (fields : List (String × Json))
    (htok : optStrTruthy tok = true)
    (hs : net ⟨searchUrl pkg, some 10⟩
      = Except.ok ⟨200, Json.obj [("items", Json.arr (Json.obj fields :: rest))],
          stext⟩)
    (hrepo : jsonLookup fields "full_name" = some (Json.str full)) :
    (∀ spdx ltext,
      net ⟨licenseUrl full, some 10⟩
        = Except.ok ⟨200,
            Json.obj [("license", Json.obj [("spdx_id", Json.str spdx)])], ltext⟩ →
      (search_license_issues tok net pkg).2.1
        = [⟨searchUrl pkg, some 10⟩, ⟨licenseUrl full, some 10⟩]) ∧
    (∀ (lstat : Nat) (lbody : Json) (ltext : String) (ns : List String)
        (ctext : String),
      net ⟨licenseUrl full, some 10⟩ = Except.ok ⟨lstat, lbody, ltext⟩ →
      lstat ≠ 200 →
      net ⟨contentsUrl full, some 10⟩
        = Except.ok ⟨200,
            Json.arr (ns.map fun n => Json.obj [("name", Json.str n)]), ctext⟩ →
      search_license_issues tok net pkg
        = (Except.ok
            (if (ns.filter fun n =>
                  strContains (pyLower n) "license"
                    || strContains (pyLower n) "copying").isEmpty
             then "No license information found for " ++ full
             else "Found potential license file(s) in " ++ full ++ ": "
               ++ String.intercalate ", "
                    ((ns.filter fun n =>
                      strContains (pyLower n) "license"
                        || strContains (pyLower n) "copying").map pyLower)),
            [⟨searchUrl pkg, some 10⟩, ⟨licenseUrl full, some 10⟩,
              ⟨contentsUrl full, some 10⟩], [])) ∧
    (∀ lstat lbody ltext cstat cbody ctext,
      net ⟨licenseUrl full, some 10⟩ = Except.ok ⟨lstat, lbody, ltext⟩ →
      lstat ≠ 200 →
      net ⟨contentsUrl full, some 10⟩ = Except.ok ⟨cstat, cbody, ctext⟩ →
      cstat ≠ 200 →
      search_license_issues tok net pkg
        = (Except.ok ("No license information found for " ++ full),
            [⟨searchUrl pkg, some 10⟩, ⟨licenseUrl full, some 10⟩,
              ⟨contentsUrl full, some 10⟩], [])) := by
  refine ⟨fun spdx ltext hl => ?_, fun lstat lbody ltext ns ctext hl hne hc => ?_,
    fun lstat lbody ltext cstat cbody ctext hl hne hc hcne => ?_⟩
  · simp [search_license_issues, searchInner, htok, hs, hrepo, hl, Json.getD,
      Json.lookup?, jsonLookup, Json.truthy, pyFirst, Json.index, Json.pyStr]
  · simp [search_license_issues, searchInner, htok, hs, hrepo, hl, hne, hc,
      Json.getD, Json.lookup?, jsonLookup, Json.truthy, pyFirst, Json.index,
      Json.pyStr, fileNames, fileNamesGo_names, filter_pyLower]
    by_cases hall : ∀ a ∈ ns, strContains (pyLower a) "license" = false
        ∧ strContains (pyLower a) "copying" = false
    · rw [if_pos hall, if_pos hall]
    · rw [if_neg hall, if_neg hall]
  · simp [search_license_issues, searchInner, htok, hs, hrepo, hl, hne, hc,
      hcne, Json.getD, Json.lookup?, jsonLookup, Json.truthy, pyFirst,
      Json.index, Json.pyStr]

/-- Witness for C4 at a concrete scenario: license endpoint 404, contents
endpoint 200 with files LICENSE.md and readme, so the lowered match
license.md is listed. -/
theorem C4_witness :
    optStrTruthy (some "tok") = true ∧ (404 : Nat) ≠ 200 ∧
    search_license_issues (some "tok") netFallback "widgets"
      = (Except.ok "Found potential license file(s) in acme/widgets: license.md",
          [⟨searchUrl "widgets", some 10⟩, ⟨licenseUrl "acme/widgets", some 10⟩,
            ⟨contentsUrl "acme/widgets", some 10⟩], []) := by
  refine ⟨rfl, by decide, ?_⟩
  rw [(C4_contents_fallback (some "tok") netFallback "widgets" "acme/widgets" ""
      [] [("full_name", Json.str "acme/widgets")] rfl rfl rfl).2.1
      404 Json.null "" ["LICENSE.md", "readme"] "" rfl (by decide) rfl]
  rfl

/-- Every request the try-block of search_license_issues issues carries the
explicit 10-second timeout. -/
theorem searchInner_timeouts (net : Net) (pkg : String) :
    ((searchInner net pkg).2.all fun r => r.timeout == some 10) = true := by
  unfold searchInner
  dsimp only
  repeat' split
  all_goals rfl

/-- Counterexample to claim C1 as stated: in a concrete successful run of
search_license_issues, it is false that the issued HTTP requests carry no
explicit timeout (the request list is non-empty and every entry was issued
with timeout=10). -/
theorem C1_counterexample :
    ((search_license_issues (some "tok") netFound "widgets").2.1.all
        fun r => r.timeout == none) = false
      ∧ (search_license_issues (some "tok") netFound "widgets").2.1.length = 2 := by
  exact ⟨rfl, rfl⟩

/-- Claim C1 amended: every HTTP request issued by search_license_issues
carries the explicit fixed 10-second timeout, as do the requests of
fetch_license_via_api, lookup_license_text and fetch_license_from_repo:
four of the five operations carry the fixed per-request timeout, and only
the clause-audit model call (which issues no HTTP request and is outside
this accounting) has no explicit timeout. -/
theorem C1_amended_all_timeouts :
    (∀ (tok : Option String) (net : Net) (pkg : String),
      ((search_license_issues tok net pkg).2.1.all
        fun r => r.timeout == some 10) = true) ∧
    (∀ (key : Option String) (net : Net) (group artifact version : String),
      ((fetch_license_via_api key net group artifact version).2.1.all
        fun r => r.timeout == some 10) = true) ∧
    (∀ (net : Net) (license_name : String),
      ((lookup_license_text net license_name).2.1.all
        fun r => r.timeout == some 10) = true) ∧
    (∀ (net : Net) (url : String),
      ((fetch_license_from_repo net url).2.1.all
        fun r => r.timeout == some 10) = true) := by
  refine ⟨fun tok net pkg => ?_, fun key net group artifact version => ?_,
    fun net license_name => ?_, fun net url => ?_⟩
  · have h := searchInner_timeouts net pkg
    unfold search_license_issues
    split
    · rfl
    · split <;> (rename_i heq; rw [heq] at h; simpa using h)
  · unfold fetch_license_via_api
    dsimp only
    repeat' split
    all_goals rfl
  · unfold lookup_license_text
    dsimp only
    repeat' split
    all_goals rfl
  · unfold fetch_license_from_repo
    dsimp only
    repeat' split
    all_goals rfl
